import Mathlib

/-!
Shallow embedding of the `date_header` crate (src/lib.rs) and proofs about it.

Bytes are modelled as `Nat` values (always < 256 for real inputs), byte
slices as `List Nat`.  Fallible Rust code is modelled in `Except ParseFail`,
where `ParseFail.invalidDate` models `Err(InvalidDate)` and
`ParseFail.panicked` models a Rust panic (an out-of-bounds slice access);
every slice index and subslice operation goes through `idx` / `getSlice`,
which return `panicked` when out of bounds, so "the code never panics"
is a provable statement about the embedding.

Rust `i64` arithmetic is modelled by `Int` with `Int.tdiv` / `Int.tmod`
(truncating division, the semantics of Rust's `/` and `%`); `u8` and `u64`
arithmetic by `Nat`, with `% 256` at the points where the source performs
an `as u8` cast or a wrapping `u8` operation.
-/

namespace DateHeader

/-- ASCII byte values of a list of characters (used for the byte-string
literals `b"..."` of the source). -/
def bytes (l : List Char) : List Nat := l.map Char.toNat

/-- Unix timestamp for Jan 1st, 10000 (`YEAR_10000` in lib.rs). -/
def YEAR_10000 : Nat := 253402300800

/-- Outcome of fallible parsing code: `invalidDate` models `Err(InvalidDate)`,
`panicked` models a Rust panic (out-of-bounds slice access).  The source
functions from lib.rs can only ever produce `invalidDate`; that is proved
below. -/
inductive ParseFail where
  | invalidDate
  | panicked

/-- The `HttpDate` struct of lib.rs (line 380). -/
structure HttpDate where
  sec : Nat
  min : Nat
  hour : Nat
  day : Nat
  mon : Nat
  year : Nat
  weekday : Nat

/-- Indexing `s[i]` on a Rust byte slice: panics when out of bounds. -/
def idx (s : List Nat) (i : Nat) : Except ParseFail Nat :=
  match s.get? i with
  | some v => .ok v
  | none => .error .panicked

/-- Subslicing `&s[a..b]` on a Rust byte slice: panics when out of range. -/
def getSlice (s : List Nat) (a b : Nat) : Except ParseFail (List Nat) :=
  if a ≤ b ∧ b ≤ s.length then .ok ((s.drop a).take (b - a)) else .error .panicked

/-- `x.wrapping_sub(b'0')` on a `u8` (lib.rs digit decoders). -/
def wsub48 (x : Nat) : Nat := (x + 208) % 256

/-- `toint_1` from lib.rs (line 391). -/
def toint_1 (x : Nat) : Except ParseFail Nat :=
  let result := wsub48 x
  if result < 10 then .ok result else .error .invalidDate

/-- `toint_2` from lib.rs (line 401): indexes `s[0]` and `s[1]` without a
length check, so it can panic on a short slice. -/
def toint_2 (s : List Nat) : Except ParseFail Nat := do
  let s0 ← idx s 0
  let s1 ← idx s 1
  let high := wsub48 s0
  let low := wsub48 s1
  if high < 10 ∧ low < 10 then .ok (high * 10 + low) else .error .invalidDate

/-- `toint_4` from lib.rs (line 413). -/
def toint_4 (s : List Nat) : Except ParseFail Nat := do
  let s0 ← idx s 0
  let s1 ← idx s 1
  let s2 ← idx s 2
  let s3 ← idx s 3
  let a := wsub48 s0
  let b := wsub48 s1
  let c := wsub48 s2
  let d := wsub48 s3
  if a < 10 ∧ b < 10 ∧ c < 10 ∧ d < 10 then
    .ok (a * 1000 + b * 100 + c * 10 + d)
  else .error .invalidDate

/-- The month-name match of `parse_imf_fixdate` (lib.rs line 240),
on the subslice `&s[7..12]`. -/
def imf_month_code (t : List Nat) : Except ParseFail Nat :=
  if t = bytes [' ', 'J', 'a', 'n', ' '] then .ok 1
  else if t = bytes [' ', 'F', 'e', 'b', ' '] then .ok 2
  else if t = bytes [' ', 'M', 'a', 'r', ' '] then .ok 3
  else if t = bytes [' ', 'A', 'p', 'r', ' '] then .ok 4
  else if t = bytes [' ', 'M', 'a', 'y', ' '] then .ok 5
  else if t = bytes [' ', 'J', 'u', 'n', ' '] then .ok 6
  else if t = bytes [' ', 'J', 'u', 'l', ' '] then .ok 7
  else if t = bytes [' ', 'A', 'u', 'g', ' '] then .ok 8
  else if t = bytes [' ', 'S', 'e', 'p', ' '] then .ok 9
  else if t = bytes [' ', 'O', 'c', 't', ' '] then .ok 10
  else if t = bytes [' ', 'N', 'o', 'v', ' '] then .ok 11
  else if t = bytes [' ', 'D', 'e', 'c', ' '] then .ok 12
  else .error .invalidDate

/-- The weekday-name match of `parse_imf_fixdate` (lib.rs line 255),
on the subslice `&s[..5]`. -/
def imf_weekday_code (t : List Nat) : Except ParseFail Nat :=
  if t = bytes ['S', 'u', 'n', ',', ' '] then .ok 0
  else if t = bytes ['M', 'o', 'n', ',', ' '] then .ok 1
  else if t = bytes ['T', 'u', 'e', ',', ' '] then .ok 2
  else if t = bytes ['W', 'e', 'd', ',', ' '] then .ok 3
  else if t = bytes ['T', 'h', 'u', ',', ' '] then .ok 4
  else if t = bytes ['F', 'r', 'i', ',', ' '] then .ok 5
  else if t = bytes ['S', 'a', 't', ',', ' '] then .ok 6
  else .error .invalidDate

/-- `parse_imf_fixdate` from lib.rs (line 230).
Example accepted input: `Sun, 06 Nov 1994 08:49:37 GMT`. -/
def parse_imf_fixdate (s : List Nat) : Except ParseFail HttpDate := do
  if s.length ≠ 29 then .error .invalidDate else
  let t ← getSlice s 25 s.length
  if t ≠ bytes [' ', 'G', 'M', 'T'] then .error .invalidDate else
  let c16 ← idx s 16
  if c16 ≠ 32 then .error .invalidDate else
  let c19 ← idx s 19
  if c19 ≠ 58 then .error .invalidDate else
  let c22 ← idx s 22
  if c22 ≠ 58 then .error .invalidDate else
  let sec ← toint_2 (← getSlice s 23 25)
  let minute ← toint_2 (← getSlice s 20 22)
  let hour ← toint_2 (← getSlice s 17 19)
  let day ← toint_2 (← getSlice s 5 7)
  let mon ← imf_month_code (← getSlice s 7 12)
  let weekday ← imf_weekday_code (← getSlice s 0 5)
  let year ← toint_4 (← getSlice s 12 16)
  .ok ⟨sec, minute, hour, day, mon, year, weekday⟩

/-- The month-name match of `parse_rfc850_date` (lib.rs line 304),
on the subslice `&s[2..7]`. -/
def rfc850_month_code (t : List Nat) : Except ParseFail Nat :=
  if t = bytes ['-', 'J', 'a', 'n', '-'] then .ok 1
  else if t = bytes ['-', 'F', 'e', 'b', '-'] then .ok 2
  else if t = bytes ['-', 'M', 'a', 'r', '-'] then .ok 3
  else if t = bytes ['-', 'A', 'p', 'r', '-'] then .ok 4
  else if t = bytes ['-', 'M', 'a', 'y', '-'] then .ok 5
  else if t = bytes ['-', 'J', 'u', 'n', '-'] then .ok 6
  else if t = bytes ['-', 'J', 'u', 'l', '-'] then .ok 7
  else if t = bytes ['-', 'A', 'u', 'g', '-'] then .ok 8
  else if t = bytes ['-', 'S', 'e', 'p', '-'] then .ok 9
  else if t = bytes ['-', 'O', 'c', 't', '-'] then .ok 10
  else if t = bytes ['-', 'N', 'o', 'v', '-'] then .ok 11
  else if t = bytes ['-', 'D', 'e', 'c', '-'] then .ok 12
  else .error .invalidDate

/-- `parse_rfc850_date` from lib.rs (line 273).
Example accepted input: `Sunday, 06-Nov-94 08:49:37 GMT`. -/
def parse_rfc850_date (s : List Nat) : Except ParseFail HttpDate := do
  if s.length < 23 then .error .invalidDate else
  let sw ←
    (if (bytes ['S', 'u', 'n', 'd', 'a', 'y', ',', ' ']).isPrefixOf s then do
      let r ← getSlice s 8 s.length
      .ok (r, 0)
    else if (bytes ['M', 'o', 'n', 'd', 'a', 'y', ',', ' ']).isPrefixOf s then do
      let r ← getSlice s 8 s.length
      .ok (r, 1)
    else if (bytes ['T', 'u', 'e', 's', 'd', 'a', 'y', ',', ' ']).isPrefixOf s then do
      let r ← getSlice s 9 s.length
      .ok (r, 2)
    else if (bytes ['W', 'e', 'd', 'n', 'e', 's', 'd', 'a', 'y', ',', ' ']).isPrefixOf s then do
      let r ← getSlice s 11 s.length
      .ok (r, 3)
    else if (bytes ['T', 'h', 'u', 'r', 's', 'd', 'a', 'y', ',', ' ']).isPrefixOf s then do
      let r ← getSlice s 10 s.length
      .ok (r, 4)
    else if (bytes ['F', 'r', 'i', 'd', 'a', 'y', ',', ' ']).isPrefixOf s then do
      let r ← getSlice s 8 s.length
      .ok (r, 5)
    else if (bytes ['S', 'a', 't', 'u', 'r', 'd', 'a', 'y', ',', ' ']).isPrefixOf s then do
      let r ← getSlice s 10 s.length
      .ok (r, 6)
    else (.error .invalidDate : Except ParseFail (List Nat × Nat)))
  let s2 := sw.1
  let weekday := sw.2
  if s2.length ≠ 22 then .error .invalidDate else
  let c12 ← idx s2 12
  if c12 ≠ 58 then .error .invalidDate else
  let c15 ← idx s2 15
  if c15 ≠ 58 then .error .invalidDate else
  let t ← getSlice s2 18 22
  if t ≠ bytes [' ', 'G', 'M', 'T'] then .error .invalidDate else
  let yy ← toint_2 (← getSlice s2 7 9)
  let year := if yy < 70 then yy + 2000 else yy + 1900
  let sec ← toint_2 (← getSlice s2 16 18)
  let minute ← toint_2 (← getSlice s2 13 15)
  let hour ← toint_2 (← getSlice s2 10 12)
  let day ← toint_2 (← getSlice s2 0 2)
  let mon ← rfc850_month_code (← getSlice s2 2 7)
  .ok ⟨sec, minute, hour, day, mon, year, weekday⟩

/-- The month-name match of `parse_asctime` (lib.rs line 347),
on the subslice `&s[4..8]`. -/
def asctime_month_code (t : List Nat) : Except ParseFail Nat :=
  if t = bytes ['J', 'a', 'n', ' '] then .ok 1
  else if t = bytes ['F', 'e', 'b', ' '] then .ok 2
  else if t = bytes ['M', 'a', 'r', ' '] then .ok 3
  else if t = bytes ['A', 'p', 'r', ' '] then .ok 4
  else if t = bytes ['M', 'a', 'y', ' '] then .ok 5
  else if t = bytes ['J', 'u', 'n', ' '] then .ok 6
  else if t = bytes ['J', 'u', 'l', ' '] then .ok 7
  else if t = bytes ['A', 'u', 'g', ' '] then .ok 8
  else if t = bytes ['S', 'e', 'p', ' '] then .ok 9
  else if t = bytes ['O', 'c', 't', ' '] then .ok 10
  else if t = bytes ['N', 'o', 'v', ' '] then .ok 11
  else if t = bytes ['D', 'e', 'c', ' '] then .ok 12
  else .error .invalidDate

/-- The weekday-name match of `parse_asctime` (lib.rs line 363),
on the subslice `&s[0..4]`. -/
def asctime_weekday_code (t : List Nat) : Except ParseFail Nat :=
  if t = bytes ['S', 'u', 'n', ' '] then .ok 0
  else if t = bytes ['M', 'o', 'n', ' '] then .ok 1
  else if t = bytes ['T', 'u', 'e', ' '] then .ok 2
  else if t = bytes ['W', 'e', 'd', ' '] then .ok 3
  else if t = bytes ['T', 'h', 'u', ' '] then .ok 4
  else if t = bytes ['F', 'r', 'i', ' '] then .ok 5
  else if t = bytes ['S', 'a', 't', ' '] then .ok 6
  else .error .invalidDate

/-- `parse_asctime` from lib.rs (line 328).
Example accepted input: `Sun Nov  6 08:49:37 1994`. -/
def parse_asctime (s : List Nat) : Except ParseFail HttpDate := do
  if s.length ≠ 24 then .error .invalidDate else
  let c10 ← idx s 10
  if c10 ≠ 32 then .error .invalidDate else
  let c13 ← idx s 13
  if c13 ≠ 58 then .error .invalidDate else
  let c16 ← idx s 16
  if c16 ≠ 58 then .error .invalidDate else
  let c19 ← idx s 19
  if c19 ≠ 32 then .error .invalidDate else
  let sec ← toint_2 (← getSlice s 17 19)
  let minute ← toint_2 (← getSlice s 14 16)
  let hour ← toint_2 (← getSlice s 11 13)
  let day ← (do
    let x ← getSlice s 8 10
    let x0 ← idx x 0
    if x0 = 32 then do
      let x1 ← idx x 1
      toint_1 x1
    else toint_2 x)
  let mon ← asctime_month_code (← getSlice s 4 8)
  let year ← toint_4 (← getSlice s 20 24)
  let weekday ← asctime_weekday_code (← getSlice s 0 4)
  .ok ⟨sec, minute, hour, day, mon, year, weekday⟩

/-- `Result::or_else` as used in `parse` (lib.rs line 164): a panic is not
caught, only `InvalidDate` falls through to the next grammar. -/
def tryOr (a b : Except ParseFail HttpDate) : Except ParseFail HttpDate :=
  match a with
  | .ok d => .ok d
  | .error .invalidDate => b
  | .error .panicked => .error .panicked

/-- The three-grammar fallback chain of `parse` (lib.rs lines 164-166). -/
def recognize (header : List Nat) : Except ParseFail HttpDate :=
  tryOr (tryOr (parse_imf_fixdate header) (parse_rfc850_date header)) (parse_asctime header)

/-- The `is_valid` range check of `parse` (lib.rs lines 168-177). -/
def is_valid (date : HttpDate) : Prop :=
  date.sec < 60 ∧ date.min < 60 ∧ date.hour < 24 ∧
  date.day > 0 ∧ date.day < 32 ∧ date.mon > 0 ∧ date.mon ≤ 12 ∧
  date.year ≥ 1970 ∧ date.year ≤ 9999

instance is_valid_dec : DecidablePred is_valid := fun d => by
  unfold is_valid
  infer_instance

/-- The `leap_years` count of `parse` (lib.rs line 183); `u16` arithmetic,
which never wraps for `1970 ≤ year ≤ 9999` (the only values reaching it). -/
def leap_years (year : Nat) : Nat :=
  ((year - 1) - 1968) / 4 - ((year - 1) - 1900) / 100 + ((year - 1) - 1600) / 400

/-- The `ydays` month table of `parse` (lib.rs lines 185-198); the default
branch is `unreachable!` in the source, guarded by `is_valid`. -/
def month_ydays (mon : Nat) : Nat :=
  match mon with
  | 1 => 0
  | 2 => 31
  | 3 => 59
  | 4 => 90
  | 5 => 120
  | 6 => 151
  | 7 => 181
  | 8 => 212
  | 9 => 243
  | 10 => 273
  | 11 => 304
  | 12 => 334
  | _ => 0

/-- The `is_leap_year` test of `parse` (lib.rs line 203). -/
def is_leap_year (year : Nat) : Prop :=
  year % 4 = 0 ∧ (year % 100 ≠ 0 ∨ year % 400 = 0)

instance is_leap_year_dec : DecidablePred is_leap_year := fun y => by
  unfold is_leap_year
  infer_instance

/-- The timestamp accumulation of `parse` (lib.rs lines 183-210): civil
fields to a Unix timestamp, `u64` arithmetic. -/
def date_timestamp (date : HttpDate) : Nat :=
  let ydays0 := month_ydays date.mon + date.day - 1
  let ydays := if is_leap_year date.year ∧ date.mon > 2 then ydays0 + 1 else ydays0
  let days := (date.year - 1970) * 365 + leap_years date.year + ydays
  date.sec + date.min * 60 + date.hour * 3600 + days * 86400

/-- `parse` from lib.rs (line 163): recognize (the `?` propagates a
recognizer error), range-check, then the weekday cross-check. -/
def parse (header : List Nat) : Except ParseFail Nat :=
  match recognize header with
  | .error e => .error e
  | .ok date =>
    if ¬ is_valid date then .error .invalidDate else
    let timestamp := date_timestamp date
    let expected_weekday := (timestamp / 86400 + 4) % 7
    if expected_weekday ≠ date.weekday then .error .invalidDate
    else .ok timestamp

/-! ### The `format` side (lib.rs lines 27-143) -/

/-- `LEAPOCH` (lib.rs line 33): days from the epoch to 2000-03-01. -/
def LEAPOCH : Int := 11017

/-- `DAYS_PER_400Y` (lib.rs line 34). -/
def DAYS_PER_400Y : Int := 365 * 400 + 97

/-- `DAYS_PER_100Y` (lib.rs line 35). -/
def DAYS_PER_100Y : Int := 365 * 100 + 24

/-- `DAYS_PER_4Y` (lib.rs line 36). -/
def DAYS_PER_4Y : Int := 365 * 4 + 1

/-- The March-first month-length table of `format` (lib.rs line 73). -/
def months : List Int := [31, 30, 31, 30, 31, 31, 30, 31, 30, 31, 31, 29]

/-- The month loop of `format` (lib.rs lines 74-81): `mon` is incremented,
then the loop breaks when `remdays` is less than the month length, else
subtracts it.  Returns the final `(mon, remdays)`. -/
def month_scan : Int → List Int → Int → Int × Int
  | remdays, [], mon => (mon, remdays)
  | remdays, m :: rest, mon =>
    if remdays < m then (mon + 1, remdays)
    else month_scan (remdays - m) rest (mon + 1)

/-- The weekday-name table of `format` (lib.rs lines 95-104); the default
branch is `unreachable!` in the source. -/
def weekday_name (wday : Int) : List Nat :=
  match wday with
  | 1 => bytes ['M', 'o', 'n']
  | 2 => bytes ['T', 'u', 'e']
  | 3 => bytes ['W', 'e', 'd']
  | 4 => bytes ['T', 'h', 'u']
  | 5 => bytes ['F', 'r', 'i']
  | 6 => bytes ['S', 'a', 't']
  | 7 => bytes ['S', 'u', 'n']
  | _ => []

/-- The month-name table of `format` (lib.rs lines 106-120); the default
branch is `unreachable!` in the source. -/
def month_name (mon : Int) : List Nat :=
  match mon with
  | 1 => bytes ['J', 'a', 'n']
  | 2 => bytes ['F', 'e', 'b']
  | 3 => bytes ['M', 'a', 'r']
  | 4 => bytes ['A', 'p', 'r']
  | 5 => bytes ['M', 'a', 'y']
  | 6 => bytes ['J', 'u', 'n']
  | 7 => bytes ['J', 'u', 'l']
  | 8 => bytes ['A', 'u', 'g']
  | 9 => bytes ['S', 'e', 'p']
  | 10 => bytes ['O', 'c', 't']
  | 11 => bytes ['N', 'o', 'v']
  | 12 => bytes ['D', 'e', 'c']
  | _ => []

/-- Rust `as u8` on an `i64`: two's-complement truncation to 8 bits. -/
def u8_of_int (x : Int) : Nat := (x % 256).toNat

/-- The civil fields computed inside `format` (lib.rs lines 32-120). -/
structure FF where
  year : Int
  mon : Int
  mday : Int
  hour : Nat
  min : Nat
  sec : Nat
  wday : Int

/-- The 400-year cycle split of `format` (lib.rs lines 45-51): truncating
division plus the negative-remainder correction.  Returns
`(qc_cycles, remdays)`. -/
def qc_corrected (days : Int) : Int × Int :=
  let qc_cycles := days.tdiv DAYS_PER_400Y
  let remdays := days.tmod DAYS_PER_400Y
  if remdays < 0 then (qc_cycles - 1, remdays + DAYS_PER_400Y) else (qc_cycles, remdays)

/-- The capped cycle split used three times by `format` (lib.rs lines
53-69): `cycles = remdays / per`, decremented when it equals `cap`, and
the remainder after subtracting the cycles.  Returns `(cycles, remdays)`. -/
def capped_div (r per cap : Int) : Int × Int :=
  let cycles := r.tdiv per
  let cycles := if cycles = cap then cycles - 1 else cycles
  (cycles, r - cycles * per)

/-- The year/month/day computation of `format` (lib.rs lines 45-88) on the
rebased day count: cycle decomposition, March-based month scan, and the
January/February year remap.  Returns `(year, mon, mday)`. -/
def civil_from_days (days : Int) : Int × Int × Int :=
  let p400 := qc_corrected days
  let p100 := capped_div p400.2 DAYS_PER_100Y 4
  let p4 := capped_div p100.2 DAYS_PER_4Y 25
  let p1 := capped_div p4.2 365 4
  let year := 2000 + p1.1 + 4 * p4.1 + 100 * p100.1 + 400 * p400.1
  let ms := month_scan p1.2 months 0
  let mday := ms.2 + 1
  if ms.1 + 2 > 12 then (year + 1, ms.1 - 10, mday) else (year, ms.1 + 2, mday)

/-- The weekday computation of `format` (lib.rs lines 90-93):
`(3 + days) % 7` normalized into `1..=7` (1 = Monday, 7 = Sunday). -/
def wday_from_days (days : Int) : Int :=
  let wday := (3 + days).tmod 7
  if wday ≤ 0 then wday + 7 else wday

/-- The field computation of `format` (lib.rs lines 32-104): timestamp to
civil fields by the 400/100/4/1-year cycle decomposition rebased at
2000-03-01.  `sec`/`min`/`hour` carry the `as u8` cast (`% 256`). -/
def format_fields (secs_since_epoch : Nat) : FF :=
  let days : Int := (secs_since_epoch / 86400 : Nat) - LEAPOCH
  let secs_of_day := secs_since_epoch % 86400
  let sec := secs_of_day % 60 % 256
  let minute := secs_of_day % 3600 / 60 % 256
  let hour := secs_of_day / 3600 % 256
  let ymd := civil_from_days days
  ⟨ymd.1, ymd.2.1, ymd.2.2, hour, minute, sec, wday_from_days days⟩

/-- The buffer writes of `format` (lib.rs lines 122-140): overwrite the
whole 29-byte buffer with the template, then write each field.  `u8`
additions `b'0' + _` wrap (`% 256`). -/
def render (f : FF) : List Nat :=
  let b := bytes [' ', ' ', ' ', ',', ' ', '0', '0', ' ', ' ', ' ', ' ', ' ',
                  '0', '0', '0', '0', ' ', '0', '0', ':', '0', '0', ':', '0', '0',
                  ' ', 'G', 'M', 'T']
  let wd := weekday_name f.wday
  let mn := month_name f.mon
  let b := b.set 0 (wd.getD 0 0)
  let b := b.set 1 (wd.getD 1 0)
  let b := b.set 2 (wd.getD 2 0)
  let b := b.set 5 ((48 + u8_of_int (f.mday.tdiv 10)) % 256)
  let b := b.set 6 ((48 + u8_of_int (f.mday.tmod 10)) % 256)
  let b := b.set 8 (mn.getD 0 0)
  let b := b.set 9 (mn.getD 1 0)
  let b := b.set 10 (mn.getD 2 0)
  let b := b.set 12 ((48 + u8_of_int (f.year.tdiv 1000)) % 256)
  let b := b.set 13 ((48 + u8_of_int ((f.year.tdiv 100).tmod 10)) % 256)
  let b := b.set 14 ((48 + u8_of_int ((f.year.tdiv 10).tmod 10)) % 256)
  let b := b.set 15 ((48 + u8_of_int (f.year.tmod 10)) % 256)
  let b := b.set 17 ((48 + f.hour / 10) % 256)
  let b := b.set 18 ((48 + f.hour % 10) % 256)
  let b := b.set 20 ((48 + f.min / 10) % 256)
  let b := b.set 21 ((48 + f.min % 10) % 256)
  let b := b.set 23 ((48 + f.sec / 10) % 256)
  let b := b.set 24 ((48 + f.sec % 10) % 256)
  b

/-- The `TooFuturistic` error struct of lib.rs (line 149). -/
structure TooFuturistic where

/-- `format` from lib.rs (line 27): returns the `Result` together with the
final contents of the caller's buffer (unchanged on error, fully
overwritten on success). -/
def format (secs_since_epoch : Nat) (buffer : List Nat) :
    Except TooFuturistic Unit × List Nat :=
  if secs_since_epoch ≥ YEAR_10000 then (.error ⟨⟩, buffer)
  else (.ok (), render (format_fields secs_since_epoch))

set_option maxHeartbeats 2000000

/-! ### Inversion and reduction lemmas for `parse` -/

theorem tryOr_ok (d : HttpDate) (b : Except ParseFail HttpDate) :
    tryOr (.ok d) b = .ok d := rfl

theorem parse_eq_ok {s : List Nat} {d : HttpDate} (hr : recognize s = .ok d)
    (hv : is_valid d) (hw : (date_timestamp d / 86400 + 4) % 7 = d.weekday) :
    parse s = .ok (date_timestamp d) := by
  unfold parse
  rw [hr]
  dsimp only
  rw [if_neg (fun hc => hc hv), if_neg (fun hc => hc hw)]

theorem parse_eq_invalid_weekday {s : List Nat} {d : HttpDate} (hr : recognize s = .ok d)
    (hv : is_valid d) (hw : (date_timestamp d / 86400 + 4) % 7 ≠ d.weekday) :
    parse s = .error .invalidDate := by
  unfold parse
  rw [hr]
  dsimp only
  rw [if_neg (fun hc => hc hv), if_pos hw]

theorem parse_ok_inv {s : List Nat} {t : Nat} (h : parse s = .ok t) :
    ∃ d, recognize s = .ok d ∧ is_valid d ∧
      (date_timestamp d / 86400 + 4) % 7 = d.weekday ∧ t = date_timestamp d := by
  unfold parse at h
  cases hr : recognize s with
  | error e =>
    rw [hr] at h
    exact Except.noConfusion h
  | ok d =>
    rw [hr] at h
    dsimp only at h
    by_cases hv : is_valid d
    · rw [if_neg (fun hc => hc hv)] at h
      by_cases hw : (date_timestamp d / 86400 + 4) % 7 = d.weekday
      · rw [if_neg (fun hc => hc hw)] at h
        exact ⟨d, rfl, hv, hw, (Except.ok.inj h).symm⟩
      · rw [if_pos hw] at h
        exact Except.noConfusion h
    · rw [if_pos hv] at h
      exact Except.noConfusion h

/-! ### The rendered buffer parses back to the same fields -/

theorem render_eq (f : FF) :
    render f = [(weekday_name f.wday).getD 0 0, (weekday_name f.wday).getD 1 0,
      (weekday_name f.wday).getD 2 0, 44, 32,
      (48 + u8_of_int (f.mday.tdiv 10)) % 256, (48 + u8_of_int (f.mday.tmod 10)) % 256, 32,
      (month_name f.mon).getD 0 0, (month_name f.mon).getD 1 0, (month_name f.mon).getD 2 0, 32,
      (48 + u8_of_int (f.year.tdiv 1000)) % 256,
      (48 + u8_of_int ((f.year.tdiv 100).tmod 10)) % 256,
      (48 + u8_of_int ((f.year.tdiv 10).tmod 10)) % 256,
      (48 + u8_of_int (f.year.tmod 10)) % 256, 32,
      (48 + f.hour / 10) % 256, (48 + f.hour % 10) % 256, 58,
      (48 + f.min / 10) % 256, (48 + f.min % 10) % 256, 58,
      (48 + f.sec / 10) % 256, (48 + f.sec % 10) % 256,
      32, 71, 77, 84] := rfl

theorem parse_imf_shape (w0 w1 w2 d1 d2 M0 M1 M2 y0 y1 y2 y3 h0 h1 mi0 mi1 s0 s1 : Nat) :
    parse_imf_fixdate [w0, w1, w2, 44, 32, d1, d2, 32, M0, M1, M2, 32, y0, y1, y2, y3,
      32, h0, h1, 58, mi0, mi1, 58, s0, s1, 32, 71, 77, 84] =
    (do
      let sec ← toint_2 [s0, s1]
      let minute ← toint_2 [mi0, mi1]
      let hour ← toint_2 [h0, h1]
      let day ← toint_2 [d1, d2]
      let mon ← imf_month_code [32, M0, M1, M2, 32]
      let weekday ← imf_weekday_code [w0, w1, w2, 44, 32]
      let year ← toint_4 [y0, y1, y2, y3]
      .ok ⟨sec, minute, hour, day, mon, year, weekday⟩) := rfl

theorem ok_bind {α β : Type} (a : α) (g : α → Except ParseFail β) :
    (Except.ok a >>= g) = g a := rfl

theorem wsub48_digit (a : Nat) (h : a < 10) : wsub48 (48 + a) = a := by
  unfold wsub48
  omega

theorem toint_2_shape (p q : Nat) :
    toint_2 [p, q] = if wsub48 p < 10 ∧ wsub48 q < 10 then
      .ok (wsub48 p * 10 + wsub48 q) else .error .invalidDate := rfl

theorem toint_2_digits (a b : Nat) (ha : a < 10) (hb : b < 10) :
    toint_2 [48 + a, 48 + b] = .ok (a * 10 + b) := by
  rw [toint_2_shape, wsub48_digit a ha, wsub48_digit b hb, if_pos ⟨ha, hb⟩]

theorem toint_4_shape (p q r s : Nat) :
    toint_4 [p, q, r, s] = if wsub48 p < 10 ∧ wsub48 q < 10 ∧ wsub48 r < 10 ∧ wsub48 s < 10 then
      .ok (wsub48 p * 1000 + wsub48 q * 100 + wsub48 r * 10 + wsub48 s)
    else .error .invalidDate := rfl

theorem toint_4_digits (a b c d : Nat) (ha : a < 10) (hb : b < 10) (hc : c < 10)
    (hd : d < 10) :
    toint_4 [48 + a, 48 + b, 48 + c, 48 + d] = .ok (a * 1000 + b * 100 + c * 10 + d) := by
  rw [toint_4_shape, wsub48_digit a ha, wsub48_digit b hb, wsub48_digit c hc,
    wsub48_digit d hd, if_pos ⟨ha, hb, hc, hd⟩]

theorem imf_month_code_name (m : Int) (h1 : 1 ≤ m) (h2 : m ≤ 12) :
    imf_month_code [32, (month_name m).getD 0 0, (month_name m).getD 1 0,
      (month_name m).getD 2 0, 32] = .ok m.toNat := by
  interval_cases m <;> rfl

theorem imf_weekday_code_name (w : Int) (h1 : 1 ≤ w) (h2 : w ≤ 7) :
    imf_weekday_code [(weekday_name w).getD 0 0, (weekday_name w).getD 1 0,
      (weekday_name w).getD 2 0, 44, 32] = .ok (w.toNat % 7) := by
  interval_cases w <;> rfl

theorem parse_imf_render (f : FF) (hy1 : 1970 ≤ f.year) (hy2 : f.year ≤ 9999)
    (hm1 : 1 ≤ f.mon) (hm2 : f.mon ≤ 12) (hd1 : 1 ≤ f.mday) (hd2 : f.mday ≤ 31)
    (hh : f.hour < 24) (hmi : f.min < 60) (hs : f.sec < 60)
    (hw1 : 1 ≤ f.wday) (hw2 : f.wday ≤ 7) :
    parse_imf_fixdate (render f) =
      .ok ⟨f.sec, f.min, f.hour, f.mday.toNat, f.mon.toNat, f.year.toNat,
        f.wday.toNat % 7⟩ := by
  rw [render_eq, parse_imf_shape]
  have e5 : (48 + u8_of_int (f.mday.tdiv 10)) % 256 = 48 + f.mday.toNat / 10 := by
    rw [Int.tdiv_eq_ediv (by omega) (by omega)]
    unfold u8_of_int
    omega
  have e6 : (48 + u8_of_int (f.mday.tmod 10)) % 256 = 48 + f.mday.toNat % 10 := by
    rw [Int.tmod_eq_emod (by omega) (by omega)]
    unfold u8_of_int
    omega
  have e12 : (48 + u8_of_int (f.year.tdiv 1000)) % 256 = 48 + f.year.toNat / 1000 := by
    rw [Int.tdiv_eq_ediv (by omega) (by omega)]
    unfold u8_of_int
    omega
  have e13 : (48 + u8_of_int ((f.year.tdiv 100).tmod 10)) % 256 =
      48 + f.year.toNat / 100 % 10 := by
    rw [Int.tdiv_eq_ediv (by omega) (by omega),
      Int.tmod_eq_emod (by omega) (by omega)]
    unfold u8_of_int
    omega
  have e14 : (48 + u8_of_int ((f.year.tdiv 10).tmod 10)) % 256 =
      48 + f.year.toNat / 10 % 10 := by
    rw [Int.tdiv_eq_ediv (by omega) (by omega),
      Int.tmod_eq_emod (by omega) (by omega)]
    unfold u8_of_int
    omega
  have e15 : (48 + u8_of_int (f.year.tmod 10)) % 256 = 48 + f.year.toNat % 10 := by
    rw [Int.tmod_eq_emod (by omega) (by omega)]
    unfold u8_of_int
    omega
  have e17 : (48 + f.hour / 10) % 256 = 48 + f.hour / 10 := by omega
  have e18 : (48 + f.hour % 10) % 256 = 48 + f.hour % 10 := by omega
  have e20 : (48 + f.min / 10) % 256 = 48 + f.min / 10 := by omega
  have e21 : (48 + f.min % 10) % 256 = 48 + f.min % 10 := by omega
  have e23 : (48 + f.sec / 10) % 256 = 48 + f.sec / 10 := by omega
  have e24 : (48 + f.sec % 10) % 256 = 48 + f.sec % 10 := by omega
  simp only [e5, e6, e12, e13, e14, e15, e17, e18, e20, e21, e23, e24]
  have t1 : toint_2 [48 + f.sec / 10, 48 + f.sec % 10] = .ok f.sec := by
    rw [toint_2_digits _ _ (by omega) (by omega)]
    congr 1
    omega
  have t2 : toint_2 [48 + f.min / 10, 48 + f.min % 10] = .ok f.min := by
    rw [toint_2_digits _ _ (by omega) (by omega)]
    congr 1
    omega
  have t3 : toint_2 [48 + f.hour / 10, 48 + f.hour % 10] = .ok f.hour := by
    rw [toint_2_digits _ _ (by omega) (by omega)]
    congr 1
    omega
  have t4 : toint_2 [48 + f.mday.toNat / 10, 48 + f.mday.toNat % 10] = .ok f.mday.toNat := by
    rw [toint_2_digits _ _ (by omega) (by omega)]
    congr 1
    omega
  have t5 : toint_4 [48 + f.year.toNat / 1000, 48 + f.year.toNat / 100 % 10,
      48 + f.year.toNat / 10 % 10, 48 + f.year.toNat % 10] = .ok f.year.toNat := by
    rw [toint_4_digits _ _ _ _ (by omega) (by omega) (by omega) (by omega)]
    congr 1
    omega
  simp only [t1, t2, t3, t4, t5, imf_month_code_name f.mon hm1 hm2,
    imf_weekday_code_name f.wday hw1 hw2, ok_bind]

theorem recognize_render (f : FF) (hy1 : 1970 ≤ f.year) (hy2 : f.year ≤ 9999)
    (hm1 : 1 ≤ f.mon) (hm2 : f.mon ≤ 12) (hd1 : 1 ≤ f.mday) (hd2 : f.mday ≤ 31)
    (hh : f.hour < 24) (hmi : f.min < 60) (hs : f.sec < 60)
    (hw1 : 1 ≤ f.wday) (hw2 : f.wday ≤ 7) :
    recognize (render f) =
      .ok ⟨f.sec, f.min, f.hour, f.mday.toNat, f.mon.toNat, f.year.toNat,
        f.wday.toNat % 7⟩ := by
  unfold recognize
  rw [parse_imf_render f hy1 hy2 hm1 hm2 hd1 hd2 hh hmi hs hw1 hw2, tryOr_ok, tryOr_ok]

/-! ### Upper bound on any timestamp produced by `parse` -/

theorem date_timestamp_lt (d : HttpDate) (h : is_valid d) :
    date_timestamp d < 253402300800 := by
  obtain ⟨h1, h2, h3, h4, h5, h6, h7, h8, h9⟩ := h
  have hmt : month_ydays d.mon ≤ 334 := by
    have hx : ∀ m, m < 13 → month_ydays m ≤ 334 := by decide
    exact hx d.mon (by omega)
  have hmt2 : d.mon ≤ 2 → month_ydays d.mon ≤ 31 := by
    intro hm
    have hx : ∀ m, m < 3 → month_ydays m ≤ 31 := by decide
    exact hx d.mon (by omega)
  have hsplit : d.year = 9999 ∨ d.year ≤ 9998 := by omega
  unfold date_timestamp
  dsimp only
  split
  · rename_i hL
    obtain ⟨hL1, hL2⟩ := hL
    unfold is_leap_year at hL1
    unfold leap_years
    rcases hsplit with hy | hy <;> omega
  · rename_i hL
    have hL2 : ¬ is_leap_year d.year ∨ d.mon ≤ 2 := by
      by_cases hx : is_leap_year d.year
      · exact Or.inr (by
          by_contra hc
          exact hL ⟨hx, by omega⟩)
      · exact Or.inl hx
    unfold is_leap_year at hL2
    unfold leap_years
    rcases hsplit with hy | hy
    · omega
    · rcases hL2 with hL3 | hL3 <;> omega

/-! ### Basic reduction lemmas for `format` -/

theorem format_lt (t : Nat) (b : List Nat) (h : t < YEAR_10000) :
    format t b = (.ok (), render (format_fields t)) := by
  unfold format
  rw [if_neg (by omega)]

theorem format_ge (t : Nat) (b : List Nat) (h : YEAR_10000 ≤ t) :
    format t b = (.error ⟨⟩, b) := by
  unfold format
  rw [if_pos h]

theorem render_length (f : FF) : (render f).length = 29 := by
  simp [render, bytes]

/-! ### Calendar arithmetic: the cycle decomposition of `format` inverts the
timestamp accumulation of `parse` -/

theorem tdiv_tmod_neg {a b : Int} (hb : 0 < b) (ha : a ≤ 0) :
    a.tdiv b = -((-a) / b) ∧ a.tmod b = a + b * ((-a) / b) := by
  have h1 : (-a).tdiv b = (-a) / b := Int.tdiv_eq_ediv (by omega) (by omega)
  have h2 := Int.neg_tdiv (-a) b
  rw [Int.neg_neg, h1] at h2
  refine ⟨h2, ?_⟩
  rw [Int.tmod_def, h2]
  ring

theorem qc_corrected_spec (days : Int) (h1 : -146097 < days) :
    146097 * (qc_corrected days).1 + (qc_corrected days).2 = days ∧
    0 ≤ (qc_corrected days).2 ∧ (qc_corrected days).2 < 146097 := by
  unfold qc_corrected DAYS_PER_400Y
  rcases le_or_lt days 0 with hneg | hpos
  · obtain ⟨hd, hm⟩ := tdiv_tmod_neg (a := days) (b := (365 * 400 + 97 : Int)) (by omega) hneg
    rw [hd, hm]
    dsimp only
    split <;> omega
  · rw [Int.tdiv_eq_ediv (by omega) (by omega), Int.tmod_eq_emod (by omega) (by omega)]
    dsimp only
    split <;> omega

theorem capped_div_spec (r per cap : Int) (hr : 0 ≤ r) (hper : 0 < per) :
    (capped_div r per cap).2 = r - per * (capped_div r per cap).1 ∧
    (((capped_div r per cap).1 = r / per ∧ r / per ≠ cap) ∨
      ((capped_div r per cap).1 = cap - 1 ∧ r / per = cap)) := by
  unfold capped_div
  rw [Int.tdiv_eq_ediv (by omega) (by omega)]
  dsimp only
  by_cases hc : r / per = cap
  · rw [if_pos hc]
    exact ⟨by ring, Or.inr ⟨by omega, hc⟩⟩
  · rw [if_neg hc]
    exact ⟨by ring, Or.inl ⟨rfl, hc⟩⟩

theorem month_scan_cons_lt {r m : Int} {rest : List Int} {mon : Int} (h : r < m) :
    month_scan r (m :: rest) mon = (mon + 1, r) := by
  rw [month_scan, if_pos h]

theorem month_scan_cons_ge {r m : Int} {rest : List Int} {mon : Int} (h : ¬ r < m) :
    month_scan r (m :: rest) mon = month_scan (r - m) rest (mon + 1) := by
  rw [month_scan, if_neg h]

theorem month_scan_cases (r : Int) (h0 : 0 ≤ r) (h1 : r ≤ 365) :
    (r < 31 ∧ month_scan r months 0 = (1, r)) ∨
    (31 ≤ r ∧ r < 61 ∧ month_scan r months 0 = (2, r - 31)) ∨
    (61 ≤ r ∧ r < 92 ∧ month_scan r months 0 = (3, r - 61)) ∨
    (92 ≤ r ∧ r < 122 ∧ month_scan r months 0 = (4, r - 92)) ∨
    (122 ≤ r ∧ r < 153 ∧ month_scan r months 0 = (5, r - 122)) ∨
    (153 ≤ r ∧ r < 184 ∧ month_scan r months 0 = (6, r - 153)) ∨
    (184 ≤ r ∧ r < 214 ∧ month_scan r months 0 = (7, r - 184)) ∨
    (214 ≤ r ∧ r < 245 ∧ month_scan r months 0 = (8, r - 214)) ∨
    (245 ≤ r ∧ r < 275 ∧ month_scan r months 0 = (9, r - 245)) ∨
    (275 ≤ r ∧ r < 306 ∧ month_scan r months 0 = (10, r - 275)) ∨
    (306 ≤ r ∧ r < 337 ∧ month_scan r months 0 = (11, r - 306)) ∨
    (337 ≤ r ∧ month_scan r months 0 = (12, r - 337)) := by
  unfold months
  rcases lt_or_ge r 31 with h | h
  · refine Or.inl ⟨h, ?_⟩
    rw [month_scan_cons_lt (by omega)]
    simp only [Prod.mk.injEq, and_true]
    omega
  rcases lt_or_ge r 61 with h2 | h2
  · refine Or.inr (Or.inl ⟨by omega, h2, ?_⟩)
    rw [month_scan_cons_ge (by omega),
      month_scan_cons_lt (by omega)]
    simp only [Prod.mk.injEq, and_true]
    omega
  rcases lt_or_ge r 92 with h3 | h3
  · refine Or.inr (Or.inr (Or.inl ⟨by omega, h3, ?_⟩))
    rw [month_scan_cons_ge (by omega), month_scan_cons_ge (by omega),
      month_scan_cons_lt (by omega)]
    simp only [Prod.mk.injEq, and_true]
    omega
  rcases lt_or_ge r 122 with h4 | h4
  · refine Or.inr (Or.inr (Or.inr (Or.inl ⟨by omega, h4, ?_⟩)))
    rw [month_scan_cons_ge (by omega), month_scan_cons_ge (by omega), month_scan_cons_ge (by omega),
      month_scan_cons_lt (by omega)]
    simp only [Prod.mk.injEq, and_true]
    omega
  rcases lt_or_ge r 153 with h5 | h5
  · refine Or.inr (Or.inr (Or.inr (Or.inr (Or.inl ⟨by omega, h5, ?_⟩))))
    rw [month_scan_cons_ge (by omega), month_scan_cons_ge (by omega), month_scan_cons_ge (by omega), month_scan_cons_ge (by omega),
      month_scan_cons_lt (by omega)]
    simp only [Prod.mk.injEq, and_true]
    omega
  rcases lt_or_ge r 184 with h6 | h6
  · refine Or.inr (Or.inr (Or.inr (Or.inr (Or.inr (Or.inl ⟨by omega, h6, ?_⟩)))))
    rw [month_scan_cons_ge (by omega), month_scan_cons_ge (by omega), month_scan_cons_ge (by omega), month_scan_cons_ge (by omega), month_scan_cons_ge (by omega),
      month_scan_cons_lt (by omega)]
    simp only [Prod.mk.injEq, and_true]
    omega
  rcases lt_or_ge r 214 with h7 | h7
  · refine Or.inr (Or.inr (Or.inr (Or.inr (Or.inr (Or.inr (Or.inl ⟨by omega, h7, ?_⟩))))))
    rw [month_scan_cons_ge (by omega), month_scan_cons_ge (by omega), month_scan_cons_ge (by omega), month_scan_cons_ge (by omega), month_scan_cons_ge (by omega), month_scan_cons_ge (by omega),
      month_scan_cons_lt (by omega)]
    simp only [Prod.mk.injEq, and_true]
    omega
  rcases lt_or_ge r 245 with h8 | h8
  · refine Or.inr (Or.inr (Or.inr (Or.inr (Or.inr (Or.inr (Or.inr (Or.inl ⟨by omega, h8, ?_⟩)))))))
    rw [month_scan_cons_ge (by omega), month_scan_cons_ge (by omega), month_scan_cons_ge (by omega), month_scan_cons_ge (by omega), month_scan_cons_ge (by omega), month_scan_cons_ge (by omega), month_scan_cons_ge (by omega),
      month_scan_cons_lt (by omega)]
    simp only [Prod.mk.injEq, and_true]
    omega
  rcases lt_or_ge r 275 with h9 | h9
  · refine Or.inr (Or.inr (Or.inr (Or.inr (Or.inr (Or.inr (Or.inr (Or.inr (Or.inl ⟨by omega, h9, ?_⟩))))))))
    rw [month_scan_cons_ge (by omega), month_scan_cons_ge (by omega), month_scan_cons_ge (by omega), month_scan_cons_ge (by omega), month_scan_cons_ge (by omega), month_scan_cons_ge (by omega), month_scan_cons_ge (by omega), month_scan_cons_ge (by omega),
      month_scan_cons_lt (by omega)]
    simp only [Prod.mk.injEq, and_true]
    omega
  rcases lt_or_ge r 306 with h10 | h10
  · refine Or.inr (Or.inr (Or.inr (Or.inr (Or.inr (Or.inr (Or.inr (Or.inr (Or.inr (Or.inl ⟨by omega, h10, ?_⟩)))))))))
    rw [month_scan_cons_ge (by omega), month_scan_cons_ge (by omega), month_scan_cons_ge (by omega), month_scan_cons_ge (by omega), month_scan_cons_ge (by omega), month_scan_cons_ge (by omega), month_scan_cons_ge (by omega), month_scan_cons_ge (by omega), month_scan_cons_ge (by omega),
      month_scan_cons_lt (by omega)]
    simp only [Prod.mk.injEq, and_true]
    omega
  rcases lt_or_ge r 337 with h11 | h11
  · refine Or.inr (Or.inr (Or.inr (Or.inr (Or.inr (Or.inr (Or.inr (Or.inr (Or.inr (Or.inr (Or.inl ⟨by omega, h11, ?_⟩))))))))))
    rw [month_scan_cons_ge (by omega), month_scan_cons_ge (by omega), month_scan_cons_ge (by omega), month_scan_cons_ge (by omega), month_scan_cons_ge (by omega), month_scan_cons_ge (by omega), month_scan_cons_ge (by omega), month_scan_cons_ge (by omega), month_scan_cons_ge (by omega), month_scan_cons_ge (by omega),
      month_scan_cons_lt (by omega)]
    simp only [Prod.mk.injEq, and_true]
    omega
  refine Or.inr (Or.inr (Or.inr (Or.inr (Or.inr (Or.inr (Or.inr (Or.inr (Or.inr (Or.inr (Or.inr (⟨by omega, ?_⟩)))))))))))
  rw [month_scan_cons_ge (by omega), month_scan_cons_ge (by omega), month_scan_cons_ge (by omega), month_scan_cons_ge (by omega), month_scan_cons_ge (by omega), month_scan_cons_ge (by omega), month_scan_cons_ge (by omega), month_scan_cons_ge (by omega), month_scan_cons_ge (by omega), month_scan_cons_ge (by omega), month_scan_cons_ge (by omega),
    month_scan_cons_lt (by omega)]
  simp only [Prod.mk.injEq, and_true]
  omega

theorem leap_years_closed (qc c q ry y : Int)
    (hc : 0 ≤ c ∧ c ≤ 3) (hq : 0 ≤ q ∧ q ≤ 24) (hry : 0 ≤ ry ∧ ry ≤ 3)
    (hy : 2000 + ry + 4 * q + 100 * c + 400 * qc = y)
    (hyr : 1970 ≤ y)
    (hyn : (y.toNat : Int) = 2000 + ry + 4 * q + 100 * c + 400 * qc) :
    (leap_years y.toNat : Int) = 7 + q + 24 * c + 97 * qc
      + (if (1 : Int) ≤ ry then 1 else 0) - (if (1 : Int) ≤ ry + 4 * q then 1 else 0)
      + (if (1 : Int) ≤ ry + 4 * q + 100 * c then 1 else 0) := by
  unfold leap_years
  split <;> split <;> split <;> omega

theorem leap_years_closed_remap (qc c q ry y : Int)
    (hc : 0 ≤ c ∧ c ≤ 3) (hq : 0 ≤ q ∧ q ≤ 24) (hry : 0 ≤ ry ∧ ry ≤ 3)
    (hy : 2001 + ry + 4 * q + 100 * c + 400 * qc = y)
    (hyr : 1970 ≤ y)
    (hyn : (y.toNat : Int) = 2001 + ry + 4 * q + 100 * c + 400 * qc) :
    (leap_years y.toNat : Int) = 8 + q + 24 * c + 97 * qc := by
  unfold leap_years
  omega

theorem is_leap_iff (qc c q ry y : Int)
    (hc : 0 ≤ c ∧ c ≤ 3) (hq : 0 ≤ q ∧ q ≤ 24) (hry : 0 ≤ ry ∧ ry ≤ 3)
    (hy : 2000 + ry + 4 * q + 100 * c + 400 * qc = y)
    (hyr : 1970 ≤ y)
    (hyn : (y.toNat : Int) = 2000 + ry + 4 * q + 100 * c + 400 * qc) :
    is_leap_year y.toNat ↔ (ry = 0 ∧ (q = 0 → c = 0)) := by
  unfold is_leap_year
  omega

theorem civil_branch_main (D : Nat) (hD : D ≤ 2932896) (qc r1 c r2 q r3 ry r4 : Int)
    (y m d : Int) (mv mydv : Nat) (ck : Int)
    (e400 : 146097 * qc + r1 = (D : Int) - 11017)
    (l400 : 0 ≤ r1) (u400 : r1 < 146097)
    (e100 : r2 = r1 - 36524 * c)
    (f100 : 0 ≤ c ∧ c ≤ 3 ∧ 0 ≤ r2 ∧ r2 ≤ 36524 ∧ (r2 = 36524 → c = 3))
    (e4 : r3 = r2 - 1461 * q)
    (f4 : 0 ≤ q ∧ q ≤ 24 ∧ 0 ≤ r3 ∧ r3 ≤ 1460)
    (e1 : r4 = r3 - 365 * ry)
    (f1 : 0 ≤ ry ∧ ry ≤ 3 ∧ 0 ≤ r4 ∧ r4 ≤ 365 ∧ (r4 = 365 → ry = 3))
    (hlo : ck ≤ r4) (hhi : r4 - ck ≤ 30)
    (hy : 2000 + ry + 4 * q + 100 * c + 400 * qc = y)
    (hm : (mv : Int) = m) (hd : r4 - ck + 1 = d)
    (hmv : 3 ≤ mv) (hmv2 : mv ≤ 12)
    (hck : ck = (mydv : Int) - 59) (hmyd0 : mydv ≤ 334)
    (hmydv : month_ydays mv = mydv) :
    1970 ≤ y ∧ y ≤ 9999 ∧ 1 ≤ m ∧ m ≤ 12 ∧ 1 ≤ d ∧ d ≤ 31 ∧
    (is_leap_year y.toNat ∧ m.toNat > 2 →
      (y.toNat - 1970) * 365 + leap_years y.toNat + (month_ydays m.toNat + d.toNat - 1) + 1 = D) ∧
    (¬ (is_leap_year y.toNat ∧ m.toNat > 2) →
      (y.toNat - 1970) * 365 + leap_years y.toNat + (month_ydays m.toNat + d.toNat - 1) = D) := by
  obtain ⟨fc1, fc2, fc3, fc4, fc5⟩ := f100
  obtain ⟨fq1, fq2, fq3, fq4⟩ := f4
  obtain ⟨fy1, fy2, fy3, fy4, fy5⟩ := f1
  have hyr : 1970 ≤ y ∧ y ≤ 9999 := by omega
  have hmn : m.toNat = mv := by omega
  have hyn : (y.toNat : Int) = 2000 + ry + 4 * q + 100 * c + 400 * qc := by omega
  have hLv := leap_years_closed qc c q ry y ⟨fc1, fc2⟩ ⟨fq1, fq2⟩ ⟨fy1, fy2⟩ hy
    (by omega) hyn
  have hLP := is_leap_iff qc c q ry y ⟨fc1, fc2⟩ ⟨fq1, fq2⟩ ⟨fy1, fy2⟩ hy
    (by omega) hyn
  rw [hmn, hmydv]
  refine ⟨by omega, by omega, by omega, by omega, by omega, by omega, ?_, ?_⟩
  · intro hL
    rw [hLP] at hL
    obtain ⟨hL1, hL2⟩ := hL
    omega
  · intro hL
    rw [hLP] at hL
    omega

theorem civil_branch_remap (D : Nat) (hD : D ≤ 2932896) (qc r1 c r2 q r3 ry r4 : Int)
    (y m d : Int) (mv mydv : Nat) (ck : Int)
    (e400 : 146097 * qc + r1 = (D : Int) - 11017)
    (l400 : 0 ≤ r1) (u400 : r1 < 146097)
    (e100 : r2 = r1 - 36524 * c)
    (f100 : 0 ≤ c ∧ c ≤ 3 ∧ 0 ≤ r2 ∧ r2 ≤ 36524 ∧ (r2 = 36524 → c = 3))
    (e4 : r3 = r2 - 1461 * q)
    (f4 : 0 ≤ q ∧ q ≤ 24 ∧ 0 ≤ r3 ∧ r3 ≤ 1460)
    (e1 : r4 = r3 - 365 * ry)
    (f1 : 0 ≤ ry ∧ ry ≤ 3 ∧ 0 ≤ r4 ∧ r4 ≤ 365 ∧ (r4 = 365 → ry = 3))
    (hlo : ck ≤ r4) (hhi : r4 - ck ≤ 30)
    (hy : 2001 + ry + 4 * q + 100 * c + 400 * qc = y)
    (hm : (mv : Int) = m) (hd : r4 - ck + 1 = d)
    (hmv : 1 ≤ mv) (hmv2 : mv ≤ 2)
    (hck : ck = (mydv : Int) + 306) (hmyd0 : mydv ≤ 31)
    (hmydv : month_ydays mv = mydv) :
    1970 ≤ y ∧ y ≤ 9999 ∧ 1 ≤ m ∧ m ≤ 12 ∧ 1 ≤ d ∧ d ≤ 31 ∧
    (is_leap_year y.toNat ∧ m.toNat > 2 →
      (y.toNat - 1970) * 365 + leap_years y.toNat + (month_ydays m.toNat + d.toNat - 1) + 1 = D) ∧
    (¬ (is_leap_year y.toNat ∧ m.toNat > 2) →
      (y.toNat - 1970) * 365 + leap_years y.toNat + (month_ydays m.toNat + d.toNat - 1) = D) := by
  obtain ⟨fc1, fc2, fc3, fc4, fc5⟩ := f100
  obtain ⟨fq1, fq2, fq3, fq4⟩ := f4
  obtain ⟨fy1, fy2, fy3, fy4, fy5⟩ := f1
  have hyr : 1970 ≤ y ∧ y ≤ 9999 := by omega
  have hmn : m.toNat = mv := by omega
  have hyn : (y.toNat : Int) = 2001 + ry + 4 * q + 100 * c + 400 * qc := by omega
  have hLv := leap_years_closed_remap qc c q ry y ⟨fc1, fc2⟩ ⟨fq1, fq2⟩ ⟨fy1, fy2⟩ hy
    (by omega) hyn
  rw [hmn, hmydv]
  refine ⟨by omega, by omega, by omega, by omega, by omega, by omega, ?_, ?_⟩
  · intro hL
    obtain ⟨hL1, hL2⟩ := hL
    omega
  · intro hL
    omega

theorem civil_from_days_spec (D : Nat) (hD : D ≤ 2932896) (y m d : Int)
    (hc : civil_from_days ((D : Int) - LEAPOCH) = (y, m, d)) :
    1970 ≤ y ∧ y ≤ 9999 ∧ 1 ≤ m ∧ m ≤ 12 ∧ 1 ≤ d ∧ d ≤ 31 ∧
    (is_leap_year y.toNat ∧ m.toNat > 2 →
      (y.toNat - 1970) * 365 + leap_years y.toNat + (month_ydays m.toNat + d.toNat - 1) + 1 = D) ∧
    (¬ (is_leap_year y.toNat ∧ m.toNat > 2) →
      (y.toNat - 1970) * 365 + leap_years y.toNat + (month_ydays m.toNat + d.toNat - 1) = D) := by
  unfold civil_from_days LEAPOCH at hc
  rcases h400 : qc_corrected ((D : Int) - 11017) with ⟨qc, r1⟩
  have s400 := qc_corrected_spec ((D : Int) - 11017) (by omega)
  rw [h400] at s400 hc
  dsimp only at s400 hc
  obtain ⟨e400, l400, u400⟩ := s400
  rcases h100 : capped_div r1 DAYS_PER_100Y 4 with ⟨c, r2⟩
  have s100 := capped_div_spec r1 DAYS_PER_100Y 4 (by omega) (by unfold DAYS_PER_100Y; omega)
  rw [h100] at s100 hc
  unfold DAYS_PER_100Y at s100
  dsimp only at s100 hc
  obtain ⟨e100, d100⟩ := s100
  have f100 : 0 ≤ c ∧ c ≤ 3 ∧ 0 ≤ r2 ∧ r2 ≤ 36524 ∧ (r2 = 36524 → c = 3) := by omega
  clear d100
  rcases h4 : capped_div r2 DAYS_PER_4Y 25 with ⟨q, r3⟩
  have s4 := capped_div_spec r2 DAYS_PER_4Y 25 (by omega) (by unfold DAYS_PER_4Y; omega)
  rw [h4] at s4 hc
  unfold DAYS_PER_4Y at s4
  dsimp only at s4 hc
  obtain ⟨e4, d4⟩ := s4
  have f4 : 0 ≤ q ∧ q ≤ 24 ∧ 0 ≤ r3 ∧ r3 ≤ 1460 := by omega
  clear d4
  rcases h1t : capped_div r3 365 4 with ⟨ry, r4⟩
  have s1 := capped_div_spec r3 365 4 (by omega) (by omega)
  rw [h1t] at s1 hc
  dsimp only at s1 hc
  obtain ⟨e1, d1⟩ := s1
  have f1 : 0 ≤ ry ∧ ry ≤ 3 ∧ 0 ≤ r4 ∧ r4 ≤ 365 ∧ (r4 = 365 → ry = 3) := by omega
  clear d1
  rcases month_scan_cases r4 (by omega) (by omega) with
    ⟨hr, hms⟩ | ⟨hlo, hr, hms⟩ | ⟨hlo, hr, hms⟩ | ⟨hlo, hr, hms⟩ | ⟨hlo, hr, hms⟩ |
    ⟨hlo, hr, hms⟩ | ⟨hlo, hr, hms⟩ | ⟨hlo, hr, hms⟩ | ⟨hlo, hr, hms⟩ | ⟨hlo, hr, hms⟩ |
    ⟨hlo, hr, hms⟩ | ⟨hlo, hms⟩
  · rw [hms] at hc
    dsimp only at hc
    rw [if_neg (by norm_num)] at hc
    simp only [Prod.mk.injEq] at hc
    obtain ⟨hy, hm, hd⟩ := hc
    exact civil_branch_main D hD qc r1 c r2 q r3 ry r4 y m d 3 59 0
      e400 l400 u400 e100 f100 e4 f4 e1 f1 (by omega) (by omega) (by omega)
      (by omega) (by omega) (by omega) (by omega) (by omega) (by omega) rfl
  · rw [hms] at hc
    dsimp only at hc
    rw [if_neg (by norm_num)] at hc
    simp only [Prod.mk.injEq] at hc
    obtain ⟨hy, hm, hd⟩ := hc
    exact civil_branch_main D hD qc r1 c r2 q r3 ry r4 y m d 4 90 31
      e400 l400 u400 e100 f100 e4 f4 e1 f1 (by omega) (by omega) (by omega)
      (by omega) (by omega) (by omega) (by omega) (by omega) (by omega) rfl
  · rw [hms] at hc
    dsimp only at hc
    rw [if_neg (by norm_num)] at hc
    simp only [Prod.mk.injEq] at hc
    obtain ⟨hy, hm, hd⟩ := hc
    exact civil_branch_main D hD qc r1 c r2 q r3 ry r4 y m d 5 120 61
      e400 l400 u400 e100 f100 e4 f4 e1 f1 (by omega) (by omega) (by omega)
      (by omega) (by omega) (by omega) (by omega) (by omega) (by omega) rfl
  · rw [hms] at hc
    dsimp only at hc
    rw [if_neg (by norm_num)] at hc
    simp only [Prod.mk.injEq] at hc
    obtain ⟨hy, hm, hd⟩ := hc
    exact civil_branch_main D hD qc r1 c r2 q r3 ry r4 y m d 6 151 92
      e400 l400 u400 e100 f100 e4 f4 e1 f1 (by omega) (by omega) (by omega)
      (by omega) (by omega) (by omega) (by omega) (by omega) (by omega) rfl
  · rw [hms] at hc
    dsimp only at hc
    rw [if_neg (by norm_num)] at hc
    simp only [Prod.mk.injEq] at hc
    obtain ⟨hy, hm, hd⟩ := hc
    exact civil_branch_main D hD qc r1 c r2 q r3 ry r4 y m d 7 181 122
      e400 l400 u400 e100 f100 e4 f4 e1 f1 (by omega) (by omega) (by omega)
      (by omega) (by omega) (by omega) (by omega) (by omega) (by omega) rfl
  · rw [hms] at hc
    dsimp only at hc
    rw [if_neg (by norm_num)] at hc
    simp only [Prod.mk.injEq] at hc
    obtain ⟨hy, hm, hd⟩ := hc
    exact civil_branch_main D hD qc r1 c r2 q r3 ry r4 y m d 8 212 153
      e400 l400 u400 e100 f100 e4 f4 e1 f1 (by omega) (by omega) (by omega)
      (by omega) (by omega) (by omega) (by omega) (by omega) (by omega) rfl
  · rw [hms] at hc
    dsimp only at hc
    rw [if_neg (by norm_num)] at hc
    simp only [Prod.mk.injEq] at hc
    obtain ⟨hy, hm, hd⟩ := hc
    exact civil_branch_main D hD qc r1 c r2 q r3 ry r4 y m d 9 243 184
      e400 l400 u400 e100 f100 e4 f4 e1 f1 (by omega) (by omega) (by omega)
      (by omega) (by omega) (by omega) (by omega) (by omega) (by omega) rfl
  · rw [hms] at hc
    dsimp only at hc
    rw [if_neg (by norm_num)] at hc
    simp only [Prod.mk.injEq] at hc
    obtain ⟨hy, hm, hd⟩ := hc
    exact civil_branch_main D hD qc r1 c r2 q r3 ry r4 y m d 10 273 214
      e400 l400 u400 e100 f100 e4 f4 e1 f1 (by omega) (by omega) (by omega)
      (by omega) (by omega) (by omega) (by omega) (by omega) (by omega) rfl
  · rw [hms] at hc
    dsimp only at hc
    rw [if_neg (by norm_num)] at hc
    simp only [Prod.mk.injEq] at hc
    obtain ⟨hy, hm, hd⟩ := hc
    exact civil_branch_main D hD qc r1 c r2 q r3 ry r4 y m d 11 304 245
      e400 l400 u400 e100 f100 e4 f4 e1 f1 (by omega) (by omega) (by omega)
      (by omega) (by omega) (by omega) (by omega) (by omega) (by omega) rfl
  · rw [hms] at hc
    dsimp only at hc
    rw [if_neg (by norm_num)] at hc
    simp only [Prod.mk.injEq] at hc
    obtain ⟨hy, hm, hd⟩ := hc
    exact civil_branch_main D hD qc r1 c r2 q r3 ry r4 y m d 12 334 275
      e400 l400 u400 e100 f100 e4 f4 e1 f1 (by omega) (by omega) (by omega)
      (by omega) (by omega) (by omega) (by omega) (by omega) (by omega) rfl
  · rw [hms] at hc
    dsimp only at hc
    rw [if_pos (by norm_num)] at hc
    simp only [Prod.mk.injEq] at hc
    obtain ⟨hy, hm, hd⟩ := hc
    exact civil_branch_remap D hD qc r1 c r2 q r3 ry r4 y m d 1 0 306
      e400 l400 u400 e100 f100 e4 f4 e1 f1 (by omega) (by omega) (by omega)
      (by omega) (by omega) (by omega) (by omega) (by omega) (by omega) rfl
  · rw [hms] at hc
    dsimp only at hc
    rw [if_pos (by norm_num)] at hc
    simp only [Prod.mk.injEq] at hc
    obtain ⟨hy, hm, hd⟩ := hc
    exact civil_branch_remap D hD qc r1 c r2 q r3 ry r4 y m d 2 31 337
      e400 l400 u400 e100 f100 e4 f4 e1 f1 (by omega) (by omega) (by omega)
      (by omega) (by omega) (by omega) (by omega) (by omega) (by omega) rfl

theorem wday_from_days_spec (D : Nat) (hD : D ≤ 2932896) :
    1 ≤ wday_from_days ((D : Int) - LEAPOCH) ∧ wday_from_days ((D : Int) - LEAPOCH) ≤ 7 ∧
    (wday_from_days ((D : Int) - LEAPOCH)).toNat % 7 = (D + 4) % 7 := by
  unfold wday_from_days LEAPOCH
  dsimp only
  rcases le_or_lt (3 + ((D : Int) - 11017)) 0 with hn | hp
  · obtain ⟨hdv, hm⟩ := tdiv_tmod_neg (b := 7) (by norm_num) hn
    rw [hm]
    split <;> omega
  · have h1 : (3 + ((D : Int) - 11017)).tmod 7 = (3 + ((D : Int) - 11017)) % 7 :=
      Int.tmod_eq_emod (by omega) (by norm_num)
    rw [h1]
    split <;> omega

theorem format_fields_spec (secs : Nat) (h : secs < 253402300800) :
    1970 ≤ (format_fields secs).year ∧ (format_fields secs).year ≤ 9999 ∧
    1 ≤ (format_fields secs).mon ∧ (format_fields secs).mon ≤ 12 ∧
    1 ≤ (format_fields secs).mday ∧ (format_fields secs).mday ≤ 31 ∧
    (format_fields secs).hour < 24 ∧ (format_fields secs).min < 60 ∧
    (format_fields secs).sec < 60 ∧
    1 ≤ (format_fields secs).wday ∧ (format_fields secs).wday ≤ 7 ∧
    date_timestamp ⟨(format_fields secs).sec, (format_fields secs).min,
      (format_fields secs).hour, (format_fields secs).mday.toNat,
      (format_fields secs).mon.toNat, (format_fields secs).year.toNat,
      (format_fields secs).wday.toNat % 7⟩ = secs ∧
    (secs / 86400 + 4) % 7 = (format_fields secs).wday.toNat % 7 := by
  unfold format_fields
  dsimp only
  rcases hc : civil_from_days (((secs / 86400 : Nat) : Int) - LEAPOCH) with ⟨y, m, d⟩
  have hD : secs / 86400 ≤ 2932896 := by omega
  have hs := civil_from_days_spec (secs / 86400) hD y m d hc
  have hw := wday_from_days_spec (secs / 86400) hD
  dsimp only
  obtain ⟨u1, u2, u3, u4, u5, u6, i1, i2⟩ := hs
  obtain ⟨w1, w2, w3⟩ := hw
  refine ⟨u1, u2, u3, u4, u5, u6, by omega, by omega, by omega, w1, w2, ?_, w3.symm⟩
  unfold date_timestamp
  dsimp only
  by_cases hL : is_leap_year y.toNat ∧ m.toNat > 2
  · rw [if_pos hL]
    have hi := i1 hL
    omega
  · rw [if_neg hL]
    have hi := i2 hL
    omega

/-! ### No-panic machinery for claim C2

`noPanic r` says a modelled computation did not perform any out-of-bounds
slice access (the only panic source in the modelled code). -/

def noPanic {α : Type} (r : Except ParseFail α) : Prop := r ≠ .error .panicked

theorem noPanic_ok {α : Type} (a : α) : noPanic (.ok a : Except ParseFail α) := by
  intro h
  exact Except.noConfusion h

theorem noPanic_invalid {α : Type} :
    noPanic (.error .invalidDate : Except ParseFail α) := by
  intro h
  injection h with h2
  exact ParseFail.noConfusion h2

theorem ite_noPanic {α : Type} (c : Prop) [Decidable c] (a b : Except ParseFail α)
    (ha : noPanic a) (hb : noPanic b) : noPanic (if c then a else b) := by
  split
  · exact ha
  · exact hb

theorem noPanic_bind {α β : Type} {x : Except ParseFail α} {f : α → Except ParseFail β}
    (hx : noPanic x) (hf : ∀ a, x = .ok a → noPanic (f a)) : noPanic (x >>= f) := by
  cases x with
  | ok a =>
    have hb : (Except.ok a >>= f : Except ParseFail β) = f a := rfl
    rw [hb]
    exact hf a rfl
  | error e =>
    have hb : (Except.error e >>= f : Except ParseFail β) = .error e := rfl
    rw [hb]
    cases e with
    | invalidDate => exact noPanic_invalid
    | panicked => exact absurd rfl hx

theorem idx_noPanic {s : List Nat} {i : Nat} (h : i < s.length) : noPanic (idx s i) := by
  unfold idx
  rw [List.get?_eq_get h]
  exact noPanic_ok _

theorem getSlice_noPanic {s : List Nat} {a b : Nat} (h1 : a ≤ b) (h2 : b ≤ s.length) :
    noPanic (getSlice s a b) := by
  unfold getSlice
  rw [if_pos ⟨h1, h2⟩]
  exact noPanic_ok _

theorem getSlice_ok_length {s t : List Nat} {a b : Nat} (h : getSlice s a b = .ok t) :
    t.length = b - a := by
  unfold getSlice at h
  split at h
  · rename_i hc
    injection h with h2
    subst h2
    simp [List.length_take, List.length_drop]
    omega
  · exact Except.noConfusion h

theorem toint_1_noPanic (x : Nat) : noPanic (toint_1 x) := by
  unfold toint_1
  dsimp only
  split
  · exact noPanic_ok _
  · exact noPanic_invalid

theorem toint_2_noPanic {s : List Nat} (h : 2 ≤ s.length) : noPanic (toint_2 s) := by
  unfold toint_2
  refine noPanic_bind (idx_noPanic (by omega)) fun a _ => ?_
  refine noPanic_bind (idx_noPanic (by omega)) fun b _ => ?_
  dsimp only
  split
  · exact noPanic_ok _
  · exact noPanic_invalid

theorem toint_4_noPanic {s : List Nat} (h : 4 ≤ s.length) : noPanic (toint_4 s) := by
  unfold toint_4
  refine noPanic_bind (idx_noPanic (by omega)) fun a _ => ?_
  refine noPanic_bind (idx_noPanic (by omega)) fun b _ => ?_
  refine noPanic_bind (idx_noPanic (by omega)) fun c _ => ?_
  refine noPanic_bind (idx_noPanic (by omega)) fun d _ => ?_
  dsimp only
  split
  · exact noPanic_ok _
  · exact noPanic_invalid

theorem imf_month_code_noPanic (t : List Nat) : noPanic (imf_month_code t) := by
  unfold imf_month_code
  repeat refine ite_noPanic _ _ _ (noPanic_ok _) ?_
  exact noPanic_invalid

theorem imf_weekday_code_noPanic (t : List Nat) : noPanic (imf_weekday_code t) := by
  unfold imf_weekday_code
  repeat refine ite_noPanic _ _ _ (noPanic_ok _) ?_
  exact noPanic_invalid

theorem rfc850_month_code_noPanic (t : List Nat) : noPanic (rfc850_month_code t) := by
  unfold rfc850_month_code
  repeat refine ite_noPanic _ _ _ (noPanic_ok _) ?_
  exact noPanic_invalid

theorem asctime_month_code_noPanic (t : List Nat) : noPanic (asctime_month_code t) := by
  unfold asctime_month_code
  repeat refine ite_noPanic _ _ _ (noPanic_ok _) ?_
  exact noPanic_invalid

theorem asctime_weekday_code_noPanic (t : List Nat) : noPanic (asctime_weekday_code t) := by
  unfold asctime_weekday_code
  repeat refine ite_noPanic _ _ _ (noPanic_ok _) ?_
  exact noPanic_invalid

theorem parse_imf_fixdate_noPanic (s : List Nat) : noPanic (parse_imf_fixdate s) := by
  unfold parse_imf_fixdate
  split
  · exact noPanic_invalid
  · rename_i hlen
    have h29 : s.length = 29 := by omega
    refine noPanic_bind (getSlice_noPanic (by omega) (by omega)) fun t _ => ?_
    split
    · exact noPanic_invalid
    · refine noPanic_bind (idx_noPanic (by omega)) fun c16 _ => ?_
      split
      · exact noPanic_invalid
      · refine noPanic_bind (idx_noPanic (by omega)) fun c19 _ => ?_
        split
        · exact noPanic_invalid
        · refine noPanic_bind (idx_noPanic (by omega)) fun c22 _ => ?_
          split
          · exact noPanic_invalid
          · refine noPanic_bind (getSlice_noPanic (by omega) (by omega)) fun t1 ht1 => ?_
            refine noPanic_bind (toint_2_noPanic (by rw [getSlice_ok_length ht1]))
              fun sec _ => ?_
            refine noPanic_bind (getSlice_noPanic (by omega) (by omega)) fun t2 ht2 => ?_
            refine noPanic_bind (toint_2_noPanic (by rw [getSlice_ok_length ht2]))
              fun minute _ => ?_
            refine noPanic_bind (getSlice_noPanic (by omega) (by omega)) fun t3 ht3 => ?_
            refine noPanic_bind (toint_2_noPanic (by rw [getSlice_ok_length ht3]))
              fun hour _ => ?_
            refine noPanic_bind (getSlice_noPanic (by omega) (by omega)) fun t4 ht4 => ?_
            refine noPanic_bind (toint_2_noPanic (by rw [getSlice_ok_length ht4]))
              fun day _ => ?_
            refine noPanic_bind (getSlice_noPanic (by omega) (by omega)) fun t5 _ => ?_
            refine noPanic_bind (imf_month_code_noPanic _) fun mon _ => ?_
            refine noPanic_bind (getSlice_noPanic (by omega) (by omega)) fun t6 _ => ?_
            refine noPanic_bind (imf_weekday_code_noPanic _) fun wd _ => ?_
            refine noPanic_bind (getSlice_noPanic (by omega) (by omega)) fun t7 ht7 => ?_
            refine noPanic_bind (toint_4_noPanic (by rw [getSlice_ok_length ht7]))
              fun yr _ => ?_
            exact noPanic_ok _

theorem parse_rfc850_date_noPanic (s : List Nat) : noPanic (parse_rfc850_date s) := by
  unfold parse_rfc850_date
  split
  · exact noPanic_invalid
  · rename_i hlen
    have h23 : 23 ≤ s.length := by omega
    refine noPanic_bind ?_ fun sw _ => ?_
    · split_ifs <;>
        first
          | exact noPanic_invalid
          | exact noPanic_bind (getSlice_noPanic (by omega) (by omega)) fun r _ =>
              noPanic_ok _
    · dsimp only
      split
      · exact noPanic_invalid
      · rename_i hlen2
        have h22 : sw.1.length = 22 := by omega
        refine noPanic_bind (idx_noPanic (by omega)) fun c12 _ => ?_
        split
        · exact noPanic_invalid
        · refine noPanic_bind (idx_noPanic (by omega)) fun c15 _ => ?_
          split
          · exact noPanic_invalid
          · refine noPanic_bind (getSlice_noPanic (by omega) (by omega)) fun t _ => ?_
            split
            · exact noPanic_invalid
            · refine noPanic_bind (getSlice_noPanic (by omega) (by omega)) fun t1 ht1 => ?_
              refine noPanic_bind (toint_2_noPanic (by rw [getSlice_ok_length ht1]))
                fun yy _ => ?_
              refine noPanic_bind (getSlice_noPanic (by omega) (by omega)) fun t2 ht2 => ?_
              refine noPanic_bind (toint_2_noPanic (by rw [getSlice_ok_length ht2]))
                fun sec _ => ?_
              refine noPanic_bind (getSlice_noPanic (by omega) (by omega)) fun t3 ht3 => ?_
              refine noPanic_bind (toint_2_noPanic (by rw [getSlice_ok_length ht3]))
                fun minute _ => ?_
              refine noPanic_bind (getSlice_noPanic (by omega) (by omega)) fun t4 ht4 => ?_
              refine noPanic_bind (toint_2_noPanic (by rw [getSlice_ok_length ht4]))
                fun hour _ => ?_
              refine noPanic_bind (getSlice_noPanic (by omega) (by omega)) fun t5 ht5 => ?_
              refine noPanic_bind (toint_2_noPanic (by rw [getSlice_ok_length ht5]))
                fun day _ => ?_
              refine noPanic_bind (getSlice_noPanic (by omega) (by omega)) fun t6 _ => ?_
              refine noPanic_bind (rfc850_month_code_noPanic _) fun mon _ => ?_
              exact noPanic_ok _

theorem parse_asctime_noPanic (s : List Nat) : noPanic (parse_asctime s) := by
  unfold parse_asctime
  split
  · exact noPanic_invalid
  · rename_i hlen
    have h24 : s.length = 24 := by omega
    refine noPanic_bind (idx_noPanic (by omega)) fun c10 _ => ?_
    split
    · exact noPanic_invalid
    · refine noPanic_bind (idx_noPanic (by omega)) fun c13 _ => ?_
      split
      · exact noPanic_invalid
      · refine noPanic_bind (idx_noPanic (by omega)) fun c16 _ => ?_
        split
        · exact noPanic_invalid
        · refine noPanic_bind (idx_noPanic (by omega)) fun c19 _ => ?_
          split
          · exact noPanic_invalid
          · refine noPanic_bind (getSlice_noPanic (by omega) (by omega)) fun t1 ht1 => ?_
            refine noPanic_bind (toint_2_noPanic (by rw [getSlice_ok_length ht1]))
              fun sec _ => ?_
            refine noPanic_bind (getSlice_noPanic (by omega) (by omega)) fun t2 ht2 => ?_
            refine noPanic_bind (toint_2_noPanic (by rw [getSlice_ok_length ht2]))
              fun minute _ => ?_
            refine noPanic_bind (getSlice_noPanic (by omega) (by omega)) fun t3 ht3 => ?_
            refine noPanic_bind (toint_2_noPanic (by rw [getSlice_ok_length ht3]))
              fun hour _ => ?_
            refine noPanic_bind ?_ fun day _ => ?_
            · refine noPanic_bind (getSlice_noPanic (by omega) (by omega)) fun x hx => ?_
              have hxl : x.length = 2 := by
                rw [getSlice_ok_length hx]
              refine noPanic_bind (idx_noPanic (by omega)) fun x0 _ => ?_
              split
              · refine noPanic_bind (idx_noPanic (by omega)) fun x1 _ => ?_
                exact toint_1_noPanic _
              · exact toint_2_noPanic (by omega)
            · refine noPanic_bind (getSlice_noPanic (by omega) (by omega)) fun t4 _ => ?_
              refine noPanic_bind (asctime_month_code_noPanic _) fun mon _ => ?_
              refine noPanic_bind (getSlice_noPanic (by omega) (by omega)) fun t5 ht5 => ?_
              refine noPanic_bind (toint_4_noPanic (by rw [getSlice_ok_length ht5]))
                fun yr _ => ?_
              refine noPanic_bind (getSlice_noPanic (by omega) (by omega)) fun t6 _ => ?_
              refine noPanic_bind (asctime_weekday_code_noPanic _) fun wd _ => ?_
              exact noPanic_ok _

theorem tryOr_noPanic {a b : Except ParseFail HttpDate}
    (ha : noPanic a) (hb : noPanic b) : noPanic (tryOr a b) := by
  unfold tryOr
  match a with
  | .ok d => exact noPanic_ok _
  | .error .invalidDate => exact hb
  | .error .panicked => exact absurd rfl ha

theorem recognize_noPanic (s : List Nat) : noPanic (recognize s) :=
  tryOr_noPanic
    (tryOr_noPanic (parse_imf_fixdate_noPanic s) (parse_rfc850_date_noPanic s))
    (parse_asctime_noPanic s)

theorem parse_noPanic (s : List Nat) : noPanic (parse s) := by
  unfold parse
  cases hr : recognize s with
  | error e =>
    have h := recognize_noPanic s
    rw [hr] at h
    dsimp only
    cases e with
    | invalidDate => exact noPanic_invalid
    | panicked => exact absurd rfl h
  | ok d =>
    dsimp only
    split
    · exact noPanic_invalid
    · split
      · exact noPanic_invalid
      · exact noPanic_ok _

/-! ### Claim theorems (easy group) -/

/-- Claim C3: `format` fails with the future-date error exactly when the
timestamp is at or beyond `253402300800` (the first instant of year 10000),
and succeeds for every timestamp below that bound. -/
theorem c3_format_error_iff (t : Nat) (b : List Nat) :
    ((format t b).1 = .error ⟨⟩ ↔ 253402300800 ≤ t) ∧
    (t < 253402300800 → (format t b).1 = .ok ()) := by
  constructor
  · constructor
    · intro h
      by_contra hc
      rw [format_lt t b (by unfold YEAR_10000; omega)] at h
      exact Except.noConfusion h
    · intro h
      rw [format_ge t b h]
  · intro h
    rw [format_lt t b h]

/-- Witness for C3 at concrete inputs. -/
theorem c3_format_error_iff_witness :
    (format 253402300800 (List.replicate 29 0)).1 = .error ⟨⟩ ∧
    (format 0 (List.replicate 29 0)).1 = .ok () :=
  ⟨(c3_format_error_iff 253402300800 (List.replicate 29 0)).1.mpr (by omega),
   (c3_format_error_iff 0 (List.replicate 29 0)).2 (by omega)⟩

/-- Claim C4: `format 253402300799` succeeds and renders
`Fri, 31 Dec 9999 23:59:59 GMT`; `format 253402300800` fails with the
future-date error; `format 0` succeeds and renders
`Thu, 01 Jan 1970 00:00:00 GMT`. -/
theorem c4_boundary_and_epoch (b : List Nat) :
    ((format 253402300799 b).1 = .ok () ∧
      (format 253402300799 b).2 =
        bytes ['F', 'r', 'i', ',', ' ', '3', '1', ' ', 'D', 'e', 'c', ' ', '9', '9', '9', '9',
               ' ', '2', '3', ':', '5', '9', ':', '5', '9', ' ', 'G', 'M', 'T']) ∧
    (format 253402300800 b).1 = .error ⟨⟩ ∧
    ((format 0 b).1 = .ok () ∧
      (format 0 b).2 =
        bytes ['T', 'h', 'u', ',', ' ', '0', '1', ' ', 'J', 'a', 'n', ' ', '1', '9', '7', '0',
               ' ', '0', '0', ':', '0', '0', ':', '0', '0', ' ', 'G', 'M', 'T']) := by
  rw [format_lt 253402300799 b (by unfold YEAR_10000; omega),
    format_ge 253402300800 b (by unfold YEAR_10000; omega),
    format_lt 0 b (by unfold YEAR_10000; omega)]
  exact ⟨⟨rfl, rfl⟩, rfl, rfl, rfl⟩

/-- Witness for C4 at a concrete buffer. -/
theorem c4_boundary_and_epoch_witness :
    (format 253402300799 (List.replicate 29 0)).1 = .ok () :=
  (c4_boundary_and_epoch (List.replicate 29 0)).1.1

/-- Claim C5: leap-year correctness in both directions at the three spec
instants: `68169599` ↔ `Mon, 28 Feb 1972 23:59:59 GMT`, `68169600` ↔
`Tue, 29 Feb 1972 00:00:00 GMT`, `951782400` ↔
`Tue, 29 Feb 2000 00:00:00 GMT` (year 2000 leap by the /400 exception). -/
theorem c5_leap_year_instants (b : List Nat) :
    ((format 68169599 b).2 =
        bytes ['M', 'o', 'n', ',', ' ', '2', '8', ' ', 'F', 'e', 'b', ' ', '1', '9', '7', '2',
               ' ', '2', '3', ':', '5', '9', ':', '5', '9', ' ', 'G', 'M', 'T'] ∧
      parse (bytes ['M', 'o', 'n', ',', ' ', '2', '8', ' ', 'F', 'e', 'b', ' ', '1', '9', '7',
          '2', ' ', '2', '3', ':', '5', '9', ':', '5', '9', ' ', 'G', 'M', 'T']) =
        .ok 68169599) ∧
    ((format 68169600 b).2 =
        bytes ['T', 'u', 'e', ',', ' ', '2', '9', ' ', 'F', 'e', 'b', ' ', '1', '9', '7', '2',
               ' ', '0', '0', ':', '0', '0', ':', '0', '0', ' ', 'G', 'M', 'T'] ∧
      parse (bytes ['T', 'u', 'e', ',', ' ', '2', '9', ' ', 'F', 'e', 'b', ' ', '1', '9', '7',
          '2', ' ', '0', '0', ':', '0', '0', ':', '0', '0', ' ', 'G', 'M', 'T']) =
        .ok 68169600) ∧
    ((format 951782400 b).2 =
        bytes ['T', 'u', 'e', ',', ' ', '2', '9', ' ', 'F', 'e', 'b', ' ', '2', '0', '0', '0',
               ' ', '0', '0', ':', '0', '0', ':', '0', '0', ' ', 'G', 'M', 'T'] ∧
      parse (bytes ['T', 'u', 'e', ',', ' ', '2', '9', ' ', 'F', 'e', 'b', ' ', '2', '0', '0',
          '0', ' ', '0', '0', ':', '0', '0', ':', '0', '0', ' ', 'G', 'M', 'T']) =
        .ok 951782400) := by
  rw [format_lt 68169599 b (by unfold YEAR_10000; omega),
    format_lt 68169600 b (by unfold YEAR_10000; omega),
    format_lt 951782400 b (by unfold YEAR_10000; omega)]
  exact ⟨⟨rfl, rfl⟩, ⟨rfl, rfl⟩, rfl, rfl⟩

/-- Witness for C5 at a concrete buffer. -/
theorem c5_leap_year_instants_witness :
    parse (bytes ['M', 'o', 'n', ',', ' ', '2', '8', ' ', 'F', 'e', 'b', ' ', '1', '9', '7',
        '2', ' ', '2', '3', ':', '5', '9', ':', '5', '9', ' ', 'G', 'M', 'T']) =
      .ok 68169599 :=
  (c5_leap_year_instants (List.replicate 29 0)).1.2

/-- Claim C7: on success `format` fully overwrites the 29-byte buffer and
the final contents depend on the timestamp alone: any two initial buffer
contents give byte-for-byte identical results. -/
theorem c7_full_overwrite (t : Nat) (b1 b2 : List Nat) (h : t < 253402300800) :
    (format t b1).1 = .ok () ∧ (format t b1).2.length = 29 ∧
    (format t b1).2 = (format t b2).2 := by
  rw [format_lt t b1 h, format_lt t b2 h]
  exact ⟨rfl, render_length _, rfl⟩

/-- Witness for C7 at concrete inputs. -/
theorem c7_full_overwrite_witness :
    (format 1431704061 (List.replicate 29 0)).2 = (format 1431704061 (List.replicate 29 7)).2 :=
  (c7_full_overwrite 1431704061 (List.replicate 29 0) (List.replicate 29 7) (by omega)).2.2

/-- Claim C8: `parse` does no per-month day-count validation: the
well-formed IMF-fixdate text `Fri, 31 Apr 2015 00:00:00 GMT` names day 31
of 30-day April, all fields are in range, its weekday label matches the
weekday of the computed timestamp, and `parse` accepts it (the timestamp
equals that of `May 1 2015 00:00:00`). -/
theorem c8_day31_of_april_accepted :
    parse (bytes ['F', 'r', 'i', ',', ' ', '3', '1', ' ', 'A', 'p', 'r', ' ', '2', '0', '1',
        '5', ' ', '0', '0', ':', '0', '0', ':', '0', '0', ' ', 'G', 'M', 'T']) =
      .ok 1430438400 := rfl

/-- Claim C9: the three textual renderings of the instant `784111777` —
IMF-fixdate, RFC 850 (two-digit year 94 windowed to 1994) and asctime
(space-padded day) — all parse to the identical timestamp. -/
theorem c9_cross_format_agreement :
    parse (bytes ['S', 'u', 'n', ',', ' ', '0', '6', ' ', 'N', 'o', 'v', ' ', '1', '9', '9',
        '4', ' ', '0', '8', ':', '4', '9', ':', '3', '7', ' ', 'G', 'M', 'T']) =
      .ok 784111777 ∧
    parse (bytes ['S', 'u', 'n', 'd', 'a', 'y', ',', ' ', '0', '6', '-', 'N', 'o', 'v', '-',
        '9', '4', ' ', '0', '8', ':', '4', '9', ':', '3', '7', ' ', 'G', 'M', 'T']) =
      .ok 784111777 ∧
    parse (bytes ['S', 'u', 'n', ' ', 'N', 'o', 'v', ' ', ' ', '6', ' ', '0', '8', ':', '4',
        '9', ':', '3', '7', ' ', '1', '9', '9', '4']) =
      .ok 784111777 :=
  ⟨rfl, rfl, rfl⟩

/-- Claim C2: for every byte slice input, `parse` terminates and returns
either `Ok` or `Err(InvalidDate)`, never panicking: no out-of-bounds
slice access is ever performed (every access is modelled as a panicking
operation and the panic outcome is unreachable). -/
theorem c2_parse_total_no_panic (s : List Nat) :
    (∃ t, parse s = .ok t) ∨ parse s = .error .invalidDate := by
  have h := parse_noPanic s
  cases hp : parse s with
  | ok t => exact Or.inl ⟨t, rfl⟩
  | error e =>
    cases e with
    | invalidDate => exact Or.inr rfl
    | panicked => exact absurd hp h

/-- Claim C1: for every timestamp below `253402300800` and every 29-byte
buffer, `format` succeeds and `parse` applied to the resulting buffer
returns exactly the original timestamp. -/
theorem c1_round_trip (t : Nat) (b : List Nat) (h : t < 253402300800)
    (hb : b.length = 29) :
    (format t b).1 = .ok () ∧ parse (format t b).2 = .ok t := by
  have hY : t < YEAR_10000 := by
    unfold YEAR_10000
    omega
  rw [format_lt t b hY]
  refine ⟨rfl, ?_⟩
  obtain ⟨u1, u2, u3, u4, u5, u6, u7, u8, u9, u10, u11, hts, hwd⟩ :=
    format_fields_spec t (by unfold YEAR_10000 at hY; omega)
  have hrec := recognize_render (format_fields t) u1 u2 u3 u4 u5 u6 u7 u8 u9 u10 u11
  have hv : is_valid ⟨(format_fields t).sec, (format_fields t).min,
      (format_fields t).hour, (format_fields t).mday.toNat,
      (format_fields t).mon.toNat, (format_fields t).year.toNat,
      (format_fields t).wday.toNat % 7⟩ := by
    unfold is_valid
    dsimp only
    omega
  have hw : (date_timestamp ⟨(format_fields t).sec, (format_fields t).min,
      (format_fields t).hour, (format_fields t).mday.toNat,
      (format_fields t).mon.toNat, (format_fields t).year.toNat,
      (format_fields t).wday.toNat % 7⟩ / 86400 + 4) % 7 =
      HttpDate.weekday ⟨(format_fields t).sec, (format_fields t).min,
        (format_fields t).hour, (format_fields t).mday.toNat,
        (format_fields t).mon.toNat, (format_fields t).year.toNat,
        (format_fields t).wday.toNat % 7⟩ := by
    rw [hts]
    exact hwd
  rw [parse_eq_ok hrec hv hw, hts]

/-- Witness for C1 at the epoch and an all-zero buffer. -/
theorem c1_round_trip_witness :
    (format 0 (List.replicate 29 0)).1 = .ok () ∧
    parse (format 0 (List.replicate 29 0)).2 = .ok 0 :=
  c1_round_trip 0 (List.replicate 29 0) (by omega) rfl

/-- Claim C6: whenever a grammar recognizes the input but the weekday
named in the text differs from the weekday computed from the other
fields, `parse` rejects; in particular `Mon, 02 Oct 2016 14:44:11 GMT`
is rejected because 2016-10-02 was a Sunday. -/
theorem c6_weekday_mismatch_rejected :
    (∀ (s : List Nat) (d : HttpDate), recognize s = .ok d → is_valid d →
      (date_timestamp d / 86400 + 4) % 7 ≠ d.weekday →
      parse s = .error .invalidDate) ∧
    parse (bytes ['M', 'o', 'n', ',', ' ', '0', '2', ' ', 'O', 'c', 't', ' ', '2', '0',
      '1', '6', ' ', '1', '4', ':', '4', '4', ':', '1', '1', ' ', 'G', 'M', 'T']) =
      .error .invalidDate :=
  ⟨fun _ _ hr hv hw => parse_eq_invalid_weekday hr hv hw, rfl⟩

/-- Witness for C6: the general part applied at the concrete mislabeled
input. -/
theorem c6_weekday_mismatch_rejected_witness :
    parse (bytes ['M', 'o', 'n', ',', ' ', '0', '2', ' ', 'O', 'c', 't', ' ', '2', '0',
      '1', '6', ' ', '1', '4', ':', '4', '4', ':', '1', '1', ' ', 'G', 'M', 'T']) =
      .error .invalidDate :=
  c6_weekday_mismatch_rejected.1
    (bytes ['M', 'o', 'n', ',', ' ', '0', '2', ' ', 'O', 'c', 't', ' ', '2', '0',
      '1', '6', ' ', '1', '4', ':', '4', '4', ':', '1', '1', ' ', 'G', 'M', 'T'])
    ⟨11, 44, 14, 2, 10, 2016, 1⟩ rfl (by decide) (by decide)

/-- Claim C10: every timestamp returned as `Ok` by `parse` is strictly
below `253402300800`, the valid domain bound of `format`. -/
theorem c10_parse_output_bound (s : List Nat) (t : Nat) (h : parse s = .ok t) :
    t < 253402300800 := by
  obtain ⟨d, hr, hv, hw, ht⟩ := parse_ok_inv h
  rw [ht]
  exact date_timestamp_lt d hv

/-- Witness for C10 at the epoch rendering. -/
theorem c10_parse_output_bound_witness : (0 : Nat) < 253402300800 :=
  c10_parse_output_bound
    (bytes ['T', 'h', 'u', ',', ' ', '0', '1', ' ', 'J', 'a', 'n', ' ', '1', '9', '7',
      '0', ' ', '0', '0', ':', '0', '0', ':', '0', '0', ' ', 'G', 'M', 'T']) 0 rfl

end DateHeader
